import Mathlib

/-!
Verification of the EPSS viewer core (`src/app_gui.py`).

The development embeds the program's non-visual logic: CVE identifier
validation (`is_valid_cve`), the add-to-list handler (`add_cve`), the HTTP
fetch (`fetch_epss_data`), the score interpretation and display handler
(`calculate_epss`), and the bell-curve sampling (`plot_bell_curve`).

Python strings are modelled as `List Char` (`PyStr`).  Python's
`str.split(sep)` for a one-character separator is `pySplit`, `str.strip()`
is `pyStrip`, `str.isdigit()` is `isdigitStr` (digits are modelled as the
ASCII digits `0`-`9`; both the program's docstrings and the specification
speak only of plain digits).  Python floats are modelled as rationals.
-/

abbrev PyStr := List Char

/-- Python `s.split(sep)` for a single-character separator `sep`:
`pySplit sep "" = [""]`, and every occurrence of `sep` opens a new
(possibly empty) segment. -/
def pySplit (sep : Char) : PyStr → List PyStr
  | [] => [[]]
  | c :: rest =>
    if c = sep then [] :: pySplit sep rest
    else (c :: (pySplit sep rest).headD []) :: (pySplit sep rest).tail

/-- Joins segments with the separator: the inverse of `pySplit`. -/
def pyJoinSep (sep : Char) : List PyStr → PyStr
  | [] => []
  | [t] => t
  | t :: ts => t ++ sep :: pyJoinSep sep ts

/-- Python `s.isdigit()`: non-empty and all digits. -/
def isdigitStr (s : PyStr) : Bool :=
  !s.isEmpty && s.all (fun c => c.isDigit)

/-- Python `s.startswith(p)`. -/
def pyStartswith (p s : PyStr) : Bool :=
  p.isPrefixOf s

/-- `EPSSViewer.is_valid_cve` from `src/app_gui.py` line 101:
`cve.startswith("CVE-") and len(cve.split("-")) == 3 and
cve.split("-")[1].isdigit() and cve.split("-")[2].isdigit()`. -/
def is_valid_cve (cve : PyStr) : Bool :=
  pyStartswith ("CVE-".toList) cve
    && (pySplit '-' cve).length == 3
    && isdigitStr ((pySplit '-' cve).getD 1 [])
    && isdigitStr ((pySplit '-' cve).getD 2 [])

lemma pySplit_ne_nil (sep : Char) (s : PyStr) : pySplit sep s ≠ [] := by
  cases s with
  | nil => simp [pySplit]
  | cons c r => by_cases hc : c = sep <;> simp [pySplit, hc]

lemma pySplit_exists_cons (sep : Char) (s : PyStr) :
    ∃ h t, pySplit sep s = h :: t := by
  cases hps : pySplit sep s with
  | nil => exact absurd hps (pySplit_ne_nil sep s)
  | cons x y => exact ⟨x, y, rfl⟩

lemma pySplit_no_sep (sep : Char) (s : PyStr) (h : ∀ c ∈ s, c ≠ sep) :
    pySplit sep s = [s] := by
  induction s with
  | nil => rfl
  | cons c r ih =>
    have hc : c ≠ sep := h c (by simp)
    have ihr : pySplit sep r = [r] := ih (fun x hx => h x (by simp [hx]))
    simp [pySplit, hc, ihr]

lemma pySplit_append (sep : Char) (a b : PyStr) :
    pySplit sep (a ++ sep :: b) = pySplit sep a ++ pySplit sep b := by
  induction a with
  | nil => simp [pySplit]
  | cons c a' ih =>
    by_cases hc : c = sep
    · subst hc
      simp [pySplit, ih]
    · obtain ⟨h0, t0, ht⟩ := pySplit_exists_cons sep a'
      simp [pySplit, hc, ih, ht]

lemma pyJoinSep_pySplit (sep : Char) (s : PyStr) :
    pyJoinSep sep (pySplit sep s) = s := by
  induction s with
  | nil => rfl
  | cons c r ih =>
    obtain ⟨h0, t0, hps⟩ := pySplit_exists_cons sep r
    by_cases hc : c = sep
    · rw [show pySplit sep (c :: r) = [] :: pySplit sep r from by
        simp [pySplit, hc], hps, hc]
      rw [hps] at ih
      show ([] : PyStr) ++ sep :: pyJoinSep sep (h0 :: t0) = sep :: r
      rw [List.nil_append, ih]
    · rw [show pySplit sep (c :: r) =
          (c :: (pySplit sep r).headD []) :: (pySplit sep r).tail from by
        simp [pySplit, hc], hps]
      rw [hps] at ih
      cases t0 with
      | nil =>
        have h : h0 = r := ih
        show c :: h0 = c :: r
        rw [h]
      | cons x xs =>
        show (c :: h0) ++ sep :: pyJoinSep sep (x :: xs) = c :: r
        rw [List.cons_append, ← ih]
        exact rfl

lemma startswith_cve_shape (s : PyStr)
    (h : pyStartswith ("CVE-".toList) s = true) :
    ∃ r, s = 'C' :: 'V' :: 'E' :: '-' :: r := by
  have h4 : ("CVE-".toList : PyStr) = ['C', 'V', 'E', '-'] := rfl
  rw [pyStartswith, h4] at h
  rcases s with _ | ⟨a, _ | ⟨b, _ | ⟨c, _ | ⟨d, r⟩⟩⟩⟩ <;>
    simp [List.isPrefixOf] at h
  obtain ⟨ha, hb, hc, hd⟩ := h
  subst ha; subst hb; subst hc; subst hd
  exact ⟨r, rfl⟩

lemma digit_ne_dash {c : Char} (h : c.isDigit = true) : c ≠ '-' := by
  intro he
  subst he
  simp at h

lemma isdigitStr_iff (s : PyStr) :
    isdigitStr s = true ↔ s ≠ [] ∧ ∀ c ∈ s, c.isDigit = true := by
  simp [isdigitStr, List.isEmpty_iff]

lemma pySplit_cve_pattern (d1 d2 : PyStr)
    (h1 : ∀ c ∈ d1, c ≠ '-') (h2 : ∀ c ∈ d2, c ≠ '-') :
    pySplit '-' ('C' :: 'V' :: 'E' :: '-' :: (d1 ++ '-' :: d2)) =
      [['C', 'V', 'E'], d1, d2] := by
  have e1 : ('C' :: 'V' :: 'E' :: '-' :: (d1 ++ '-' :: d2) : PyStr) =
      ['C', 'V', 'E'] ++ '-' :: (d1 ++ '-' :: d2) := rfl
  rw [e1, pySplit_append, pySplit_append,
    pySplit_no_sep '-' ['C', 'V', 'E'] (by decide),
    pySplit_no_sep '-' d1 h1, pySplit_no_sep '-' d2 h2]
  rfl

/-- `is_valid_cve` accepts exactly the strings `CVE-<digits>-<digits>`. -/
lemma is_valid_cve_iff (s : PyStr) :
    is_valid_cve s = true ↔ ∃ d1 d2 : PyStr,
      isdigitStr d1 = true ∧ isdigitStr d2 = true ∧
      s = 'C' :: 'V' :: 'E' :: '-' :: (d1 ++ '-' :: d2) := by
  constructor
  · intro h
    rw [is_valid_cve] at h
    simp only [Bool.and_eq_true, beq_iff_eq] at h
    obtain ⟨⟨⟨hpre, hlen⟩, hd1⟩, hd2⟩ := h
    obtain ⟨r, hr⟩ := startswith_cve_shape s hpre
    subst hr
    have e1 : ('C' :: 'V' :: 'E' :: '-' :: r : PyStr) =
        ['C', 'V', 'E'] ++ '-' :: r := rfl
    rw [e1, pySplit_append, pySplit_no_sep '-' ['C', 'V', 'E'] (by decide)]
      at hlen hd1 hd2
    obtain ⟨h0, t0, hps⟩ := pySplit_exists_cons '-' r
    rw [hps] at hlen hd1 hd2
    simp at hlen
    cases t0 with
    | nil => simp at hlen
    | cons h1 t1 =>
      cases t1 with
      | cons _ _ => simp at hlen
      | nil =>
        refine ⟨h0, h1, ?_, ?_, ?_⟩
        · simpa using hd1
        · simpa using hd2
        · have hj := pyJoinSep_pySplit '-' r
          rw [hps] at hj
          have : pyJoinSep '-' [h0, h1] = h0 ++ '-' :: h1 := rfl
          rw [this] at hj
          rw [← hj]
  · rintro ⟨d1, d2, hd1, hd2, rfl⟩
    have h1 : ∀ c ∈ d1, c ≠ '-' := fun c hc =>
      digit_ne_dash (((isdigitStr_iff d1).mp hd1).2 c hc)
    have h2 : ∀ c ∈ d2, c ≠ '-' := fun c hc =>
      digit_ne_dash (((isdigitStr_iff d2).mp hd2).2 c hc)
    rw [is_valid_cve, pySplit_cve_pattern d1 d2 h1 h2]
    simp [pyStartswith, List.isPrefixOf, hd1, hd2]

/-- C1: `is_valid_cve` returns true exactly for the strings of the form
`CVE-<digits>-<digits>` — the literal prefix `CVE-` followed by two
hyphen-separated, non-empty, all-digit segments — and false for every
other string (the empty string included, since the existential fails). -/
theorem C1_is_valid_cve_characterization (s : PyStr) :
    is_valid_cve s = true ↔ ∃ d1 d2 : PyStr,
      d1 ≠ [] ∧ d2 ≠ [] ∧
      (∀ c ∈ d1, c.isDigit = true) ∧ (∀ c ∈ d2, c.isDigit = true) ∧
      s = 'C' :: 'V' :: 'E' :: '-' :: (d1 ++ '-' :: d2) := by
  rw [is_valid_cve_iff]
  constructor
  · rintro ⟨d1, d2, h1, h2, rfl⟩
    obtain ⟨h1n, h1d⟩ := (isdigitStr_iff d1).mp h1
    obtain ⟨h2n, h2d⟩ := (isdigitStr_iff d2).mp h2
    exact ⟨d1, d2, h1n, h2n, h1d, h2d, rfl⟩
  · rintro ⟨d1, d2, h1n, h2n, h1d, h2d, rfl⟩
    exact ⟨d1, d2, (isdigitStr_iff d1).mpr ⟨h1n, h1d⟩,
      (isdigitStr_iff d2).mpr ⟨h2n, h2d⟩, rfl⟩

/-- Witness for C1 at the concrete inputs of the specification:
`CVE-2023-1234` validates, and the characterization yields it. -/
theorem C1_witness : is_valid_cve ("CVE-2023-1234".toList) = true :=
  (C1_is_valid_cve_characterization _).mpr
    ⟨"2023".toList, "1234".toList, by decide, by decide, by decide, by decide,
      by decide⟩

/-- The whitespace characters Python's `str.strip()` removes (the ASCII
ones; Unicode spaces are outside the program's input alphabet of
interest). -/
def isPyWs (c : Char) : Bool :=
  c = ' ' || c = '\t' || c = '\n' || c = '\r' || c = '\x0b' || c = '\x0c'

/-- Python `s.strip()`: drop whitespace from both ends. -/
def pyStrip (s : PyStr) : PyStr :=
  ((s.dropWhile isPyWs).reverse.dropWhile isPyWs).reverse

/-- The widget state `add_cve` and `calculate_epss` read and write: the
text of `cve_input`, the items of `cve_list`, and the text of
`epss_score_label`. -/
structure UIState where
  cveInput : PyStr
  cveList : List PyStr
  epssLabel : PyStr
deriving DecidableEq

def strInvalidCve : PyStr := "Invalid CVE format. Please try again.".toList

/-- `EPSSViewer.add_cve` from `src/app_gui.py` lines 89-96: strip the
input, validate, and either append to the list and clear the input or set
the label to the fixed invalid-format message. -/
def add_cve (st : UIState) : UIState :=
  if is_valid_cve (pyStrip st.cveInput) then
    { st with cveList := st.cveList ++ [pyStrip st.cveInput], cveInput := [] }
  else
    { st with epssLabel := strInvalidCve }

lemma dropWhile_append_all (p : Char → Bool) (w r : PyStr)
    (hw : ∀ c ∈ w, p c = true) :
    List.dropWhile p (w ++ r) = List.dropWhile p r := by
  induction w with
  | nil => rfl
  | cons c t ih =>
    have hc : p c = true := hw c (by simp)
    rw [List.cons_append, List.dropWhile_cons, if_pos hc]
    exact ih (fun x hx => hw x (by simp [hx]))

lemma pyStrip_sandwich (w1 w2 mid : PyStr)
    (hw1 : ∀ c ∈ w1, isPyWs c = true) (hw2 : ∀ c ∈ w2, isPyWs c = true)
    (hh : ∃ c r, mid = c :: r ∧ isPyWs c = false)
    (hl : ∃ c r, mid.reverse = c :: r ∧ isPyWs c = false) :
    pyStrip (w1 ++ mid ++ w2) = mid := by
  obtain ⟨ch, rh, hm, hch⟩ := hh
  obtain ⟨cl, rl, hmr, hcl⟩ := hl
  unfold pyStrip
  rw [List.append_assoc, dropWhile_append_all _ _ _ hw1, hm,
    List.cons_append, List.dropWhile_cons, if_neg (by simp [hch]),
    ← List.cons_append, ← hm, List.reverse_append,
    dropWhile_append_all _ _ _ (fun c hc => hw2 c (List.mem_reverse.mp hc)),
    hmr, List.dropWhile_cons, if_neg (by simp [hcl]), ← hmr,
    List.reverse_reverse]

lemma pyWs_cases {c : Char} (h : isPyWs c = true) :
    c = ' ' ∨ c = '\t' ∨ c = '\n' ∨ c = '\r' ∨ c = '\x0b' ∨ c = '\x0c' := by
  simp [isPyWs] at h
  tauto

lemma pyWs_not_digit {c : Char} (h : isPyWs c = true) : c.isDigit = false := by
  rcases pyWs_cases h with rfl | rfl | rfl | rfl | rfl | rfl <;> rfl

lemma pyWs_ne_dash {c : Char} (h : isPyWs c = true) : c ≠ '-' := by
  rcases pyWs_cases h with rfl | rfl | rfl | rfl | rfl | rfl <;> decide

lemma pyWs_ne_C {c : Char} (h : isPyWs c = true) : c ≠ 'C' := by
  rcases pyWs_cases h with rfl | rfl | rfl | rfl | rfl | rfl <;> decide

lemma digit_not_ws {c : Char} (h : c.isDigit = true) : isPyWs c = false := by
  cases hw : isPyWs c with
  | false => rfl
  | true => rw [pyWs_not_digit hw] at h; exact absurd h (by simp)

lemma valid_cve_strip_ends (idv : PyStr) (hv : is_valid_cve idv = true) :
    (∃ c r, idv = c :: r ∧ isPyWs c = false) ∧
    (∃ c r, idv.reverse = c :: r ∧ isPyWs c = false) := by
  obtain ⟨d1, d2, hd1, hd2, rfl⟩ := (is_valid_cve_iff idv).mp hv
  obtain ⟨h2n, h2d⟩ := (isdigitStr_iff d2).mp hd2
  refine ⟨⟨'C', _, rfl, by decide⟩, ?_⟩
  rcases List.eq_nil_or_concat d2 with rfl | ⟨d2', cl, hcat⟩
  · exact absurd rfl h2n
  · rw [List.concat_eq_append] at hcat
    subst hcat
    have hcl : cl ∈ d2' ++ [cl] := by simp
    refine ⟨cl, ('C' :: 'V' :: 'E' :: '-' :: (d1 ++ '-' :: d2') : PyStr).reverse,
      ?_, digit_not_ws (h2d cl hcl)⟩
    have he : ('C' :: 'V' :: 'E' :: '-' :: (d1 ++ '-' :: (d2' ++ [cl])) : PyStr)
        = ('C' :: 'V' :: 'E' :: '-' :: (d1 ++ '-' :: d2')) ++ [cl] := by simp
    rw [he, List.reverse_append]
    rfl

lemma valid_cve_ws_append_invalid (d1 d2 w : PyStr) (cw : Char)
    (hd1 : isdigitStr d1 = true) (hd2 : isdigitStr d2 = true)
    (hcw : isPyWs cw = true) (hw : ∀ c ∈ w, isPyWs c = true) :
    is_valid_cve ('C' :: 'V' :: 'E' :: '-' :: (d1 ++ '-' :: (d2 ++ cw :: w)))
      = false := by
  have h1' : ∀ c ∈ d1, c ≠ '-' := fun c hc =>
    digit_ne_dash (((isdigitStr_iff d1).mp hd1).2 c hc)
  have h2' : ∀ c ∈ d2 ++ cw :: w, c ≠ '-' := by
    intro c hc
    rcases List.mem_append.mp hc with h | h
    · exact digit_ne_dash (((isdigitStr_iff d2).mp hd2).2 c h)
    · rcases List.mem_cons.mp h with rfl | h
      · exact pyWs_ne_dash hcw
      · exact pyWs_ne_dash (hw c h)
  rw [is_valid_cve, pySplit_cve_pattern d1 (d2 ++ cw :: w) h1' h2']
  have hall : (d2 ++ cw :: w).all (fun c => c.isDigit) = false := by
    rw [List.all_append]
    simp [pyWs_not_digit hcw]
  have hD : isdigitStr (d2 ++ cw :: w) = false := by
    rw [isdigitStr, hall, Bool.and_false]
  show (_ && isdigitStr (d2 ++ cw :: w)) = false
  rw [hD, Bool.and_false]

/-- C9: `add_cve` strips surrounding whitespace before validating: for a
valid identifier wrapped in (not-all-empty) whitespace, the raw input
fails `is_valid_cve`, yet `add_cve` appends the trimmed identifier to the
list and clears the input, leaving the label untouched. -/
theorem C9_add_strips_whitespace (w1 w2 idv : PyStr) (st : UIState)
    (hw1 : ∀ c ∈ w1, isPyWs c = true) (hw2 : ∀ c ∈ w2, isPyWs c = true)
    (hv : is_valid_cve idv = true) (hne : w1 ≠ [] ∨ w2 ≠ [])
    (hinp : st.cveInput = w1 ++ idv ++ w2) :
    is_valid_cve st.cveInput = false ∧
    add_cve st = { cveInput := [], cveList := st.cveList ++ [idv],
                   epssLabel := st.epssLabel } := by
  obtain ⟨hh, hl⟩ := valid_cve_strip_ends idv hv
  have hstrip : pyStrip st.cveInput = idv := by
    rw [hinp]
    exact pyStrip_sandwich w1 w2 idv hw1 hw2 hh hl
  have hraw : is_valid_cve st.cveInput = false := by
    rw [hinp]
    by_cases h1 : w1 = []
    · have h2 : w2 ≠ [] := by
        rcases hne with h | h
        · exact absurd h1 h
        · exact h
      subst h1
      obtain ⟨cw, w2', rfl⟩ : ∃ cw w2', w2 = cw :: w2' := by
        cases w2 with
        | nil => exact absurd rfl h2
        | cons a b => exact ⟨a, b, rfl⟩
      obtain ⟨d1, d2, hd1, hd2, rfl⟩ := (is_valid_cve_iff idv).mp hv
      have hsh : (([] : PyStr) ++ ('C' :: 'V' :: 'E' :: '-' ::
            (d1 ++ '-' :: d2)) ++ (cw :: w2') : PyStr)
          = 'C' :: 'V' :: 'E' :: '-' :: (d1 ++ '-' :: (d2 ++ cw :: w2')) := by
        simp
      rw [hsh]
      exact valid_cve_ws_append_invalid d1 d2 w2' cw hd1 hd2
        (hw2 cw (by simp)) (fun c hc => hw2 c (by simp [hc]))
    · obtain ⟨cw, w1', rfl⟩ : ∃ cw w1', w1 = cw :: w1' := by
        cases w1 with
        | nil => exact absurd rfl h1
        | cons a b => exact ⟨a, b, rfl⟩
      have hcw : cw ≠ 'C' := pyWs_ne_C (hw1 cw (by simp))
      have hpre : pyStartswith ("CVE-".toList) ((cw :: w1') ++ idv ++ w2)
          = false := by
        cases hps : pyStartswith ("CVE-".toList) ((cw :: w1') ++ idv ++ w2) with
        | false => rfl
        | true =>
          obtain ⟨r, hr⟩ := startswith_cve_shape _ hps
          simp only [List.cons_append, List.cons.injEq] at hr
          exact absurd hr.1 hcw
      rw [is_valid_cve, hpre]
      simp
  refine ⟨hraw, ?_⟩
  rw [add_cve, hstrip, if_pos hv]

/-- Witness for C9 at a concrete whitespace-wrapped identifier. -/
theorem C9_witness :
    is_valid_cve ("\t CVE-2023-1234 ".toList) = false ∧
    add_cve ⟨"\t CVE-2023-1234 ".toList, [], []⟩ =
      ⟨[], ["CVE-2023-1234".toList], []⟩ := by
  have h := C9_add_strips_whitespace ['\t', ' '] [' '] ("CVE-2023-1234".toList)
    ⟨"\t CVE-2023-1234 ".toList, [], []⟩ (by decide) (by decide) (by decide)
    (Or.inl (by decide)) (by decide)
  refine ⟨h.1, ?_⟩
  rw [h.2]
  exact rfl

/-- C8 as literally stated is false: an input that fails raw validation
(leading whitespace) is not rejected — its stripped form is appended. -/
theorem C8_counterexample :
    is_valid_cve (" CVE-2023-1234".toList) = false ∧
    (add_cve ⟨" CVE-2023-1234".toList, [], []⟩).cveList
      = ["CVE-2023-1234".toList] := by
  decide

/-- C8 (amended): add rejects exactly the inputs whose STRIPPED text fails
validation — leaving list and input unchanged and setting only the fixed
message — and appends the stripped identifier (clearing the input,
leaving the label) when the stripped text passes. -/
theorem C8_add_validates_stripped :
    (∀ st : UIState, is_valid_cve (pyStrip st.cveInput) = false →
      add_cve st = { st with epssLabel := strInvalidCve }) ∧
    (∀ st : UIState, is_valid_cve (pyStrip st.cveInput) = true →
      add_cve st = { cveInput := [], cveList := st.cveList ++ [pyStrip st.cveInput],
                     epssLabel := st.epssLabel }) := by
  constructor
  · intro st h
    rw [add_cve, if_neg (by simp [h])]
  · intro st h
    rw [add_cve, if_pos h]

/-- The exception classes `calculate_epss` can meet: `KeyError`,
`ValueError`, `IndexError` (the three its `except` clause catches) and
`TypeError` (raised by Python for e.g. `float(None)` or `"s"["k"]`,
and NOT caught). -/
inductive PyExc
  | keyError
  | valueError
  | indexError
  | typeError
deriving DecidableEq

/-- JSON values as decoded by `response.json()`: Python `None`, `bool`,
numbers (modelled as rationals), `str`, `list` and `dict`. -/
inductive Json
  | null
  | bool (b : Bool)
  | num (q : ℚ)
  | str (s : PyStr)
  | arr (xs : List Json)
  | obj (kvs : List (PyStr × Json))

instance : Inhabited Json := ⟨Json.null⟩

/-- Python truthiness `bool(x)` on a decoded JSON value. -/
def truthy : Json → Bool
  | .null => false
  | .bool b => b
  | .num q => q != 0
  | .str s => !s.isEmpty
  | .arr xs => !xs.isEmpty
  | .obj kvs => !kvs.isEmpty

/-- Python `key in s` on strings: substring containment. -/
def strContains (key : PyStr) : PyStr → Bool
  | [] => key.isEmpty
  | c :: t => key.isPrefixOf (c :: t) || strContains key t

/-- Python `key in x` for a string key: dict key test, list membership
(a string equals only an equal string), substring test on a string, and a
`TypeError` on the other types. -/
def strInJson (key : PyStr) : Json → Except PyExc Bool
  | .obj kvs => .ok (kvs.any (fun kv => kv.1 == key))
  | .arr xs => .ok (xs.any (fun j => match j with
      | .str t => t == key
      | _ => false))
  | .str s => .ok (strContains key s)
  | _ => .error .typeError

def objLookup (kvs : List (PyStr × Json)) (key : PyStr) : Option Json :=
  match kvs.find? (fun kv => kv.1 == key) with
  | some kv => some kv.2
  | none => none

/-- Python `x[key]` for a string key: dict lookup (`KeyError` when the
key is absent), `TypeError` on anything that is not a dict. -/
def getItemStr (j : Json) (key : PyStr) : Except PyExc Json :=
  match j with
  | .obj kvs =>
    match objLookup kvs key with
    | some v => .ok v
    | none => .error .keyError
  | _ => .error .typeError

/-- Python `x[i]` for a non-negative integer literal: list indexing
(`IndexError` past the end), string indexing (yields a one-character
string), `KeyError` on a (string-keyed) dict, `TypeError` otherwise. -/
def getItemIdx (j : Json) (i : Nat) : Except PyExc Json :=
  match j with
  | .arr xs =>
    match xs.get? i with
    | some v => .ok v
    | none => .error .indexError
  | .str s =>
    match s.get? i with
    | some c => .ok (.str [c])
    | none => .error .indexError
  | .obj _ => .error .keyError
  | _ => .error .typeError

def digitsToNat (l : PyStr) : Nat :=
  l.foldl (fun a c => 10 * a + (c.toNat - 48)) 0

/-- Decimal forms `<digits>`, `<digits>.<digits>`, `.<digits>`,
`<digits>.` accepted by Python's `float()` (exponent, `inf` and `nan`
forms are outside the inputs of interest and are not modelled). -/
def parseUnsignedFloat (s : PyStr) : Option ℚ :=
  match pySplit '.' s with
  | [w] => if isdigitStr w then some ((digitsToNat w : ℚ)) else none
  | [w, f] =>
    if (w.all (fun c => c.isDigit)) && (f.all (fun c => c.isDigit))
        && !(w.isEmpty && f.isEmpty) then
      some ((digitsToNat w : ℚ) + (digitsToNat f : ℚ) / (10 : ℚ) ^ f.length)
    else none
  | _ => none

/-- Modelled from Python's `float(str)` builtin: strips whitespace, an
optional sign, then a simple decimal form. -/
def pyParseFloat (s : PyStr) : Option ℚ :=
  match pyStrip s with
  | '+' :: r => parseUnsignedFloat r
  | '-' :: r => (parseUnsignedFloat r).map (fun q => -q)
  | r => parseUnsignedFloat r

/-- Python `float(x)` on a decoded JSON value: numbers and booleans
convert, numeric strings parse (`ValueError` otherwise), and `None`,
lists and dicts raise `TypeError`. -/
def pyFloatOfJson : Json → Except PyExc ℚ
  | .num q => .ok q
  | .bool b => .ok (if b then 1 else 0)
  | .str s =>
    match pyParseFloat s with
    | some q => .ok q
    | none => .error .valueError
  | _ => .error .typeError

/-- Round to the nearest integer, ties to even — the rounding of Python's
fixed-point string formatting. -/
def roundHalfEven (q : ℚ) : ℤ :=
  if q - ⌊q⌋ < 1 / 2 then ⌊q⌋
  else if 1 / 2 < q - ⌊q⌋ then ⌊q⌋ + 1
  else if ⌊q⌋ % 2 = 0 then ⌊q⌋ else ⌊q⌋ + 1

def natToChars (n : Nat) : PyStr := Nat.toDigits 10 n

def padZeros (d : Nat) (s : PyStr) : PyStr :=
  List.replicate (d - s.length) '0' ++ s

/-- Python `f"{q:.df}"`, fixed-point formatting with `d` decimal places
(floats modelled as exact rationals). -/
def formatFixed (q : ℚ) (d : Nat) : PyStr :=
  (if q < 0 then ['-'] else []) ++
    (natToChars ((roundHalfEven (|q| * (10 : ℚ) ^ d)).toNat / 10 ^ d)) ++
    (if d = 0 then []
     else '.' :: padZeros d (natToChars ((roundHalfEven (|q| * (10 : ℚ) ^ d)).toNat % 10 ^ d)))

def strData : PyStr := "data".toList
def strEpss : PyStr := "epss".toList
def strPercentile : PyStr := "percentile".toList
def strNoData : PyStr := "No data available or invalid API response.".toList
def strProcErr : PyStr := "Error processing API response.".toList
def strPleaseSelect : PyStr := "Please select a CVE from the list.".toList
def strErrFetching : PyStr := "Error fetching data: ".toList

/-- `EPSSViewer.API_URL`. -/
def API_URL : PyStr := "https://api.first.org/data/v1/epss".toList

/-- One outbound `requests.get` call: url, query parameters, timeout in
seconds. -/
structure HttpRequest where
  url : PyStr
  params : List (PyStr × PyStr)
  timeout : Nat
deriving DecidableEq

/-- What the network returns for a request: a raised
`requests.exceptions.RequestException` (connection error, timeout, and
kin) with its text, or an HTTP response with a status code and a decoded
JSON body. -/
inductive NetResult
  | exc (msg : PyStr)
  | response (status : Nat) (body : Json)

def mkRequest (cve today : PyStr) : HttpRequest :=
  { url := API_URL,
    params := [("cve".toList, cve), ("date".toList, today),
               ("envelope".toList, "true".toList), ("pretty".toList, "true".toList)],
    timeout := 10 }

/-- Modelled from `requests.Response.raise_for_status`: raises an
`HTTPError` exactly for status codes 400-599, with a message naming the
code. -/
def raiseForStatus (status : Nat) : Option PyStr :=
  if 400 ≤ status ∧ status < 600 then
    some (natToChars status ++
      (if status < 500 then " Client Error".toList else " Server Error".toList))
  else none

/-- The transport stage of `fetch_epss_data`: build the one request, send
it, and classify the result as an error text (exception caught, label to
set) or a decoded JSON body. -/
def fetchCore (net : HttpRequest → NetResult) (cve today : PyStr) :
    HttpRequest × (PyStr ⊕ Json) :=
  (mkRequest cve today,
    match net (mkRequest cve today) with
    | .exc msg => .inl (strErrFetching ++ msg)
    | .response status body =>
      match raiseForStatus status with
      | some m => .inl (strErrFetching ++ m)
      | none => .inr body)

/-- `EPSSViewer.fetch_epss_data` from `src/app_gui.py` lines 108-117:
issues the single GET, returns the decoded body, or sets the label to
`"Error fetching data: ..."` and returns `None` when any
`RequestException` is caught.  The third component records the requests
issued. -/
def fetch_epss_data (net : HttpRequest → NetResult) (cve today : PyStr)
    (st : UIState) : Option Json × UIState × List HttpRequest :=
  match fetchCore net cve today with
  | (req, .inl msg) => (none, { st with epssLabel := msg }, [req])
  | (req, .inr body) => (some body, st, [req])

/-- The `try` block of `calculate_epss` lines 135-136:
`float(result["data"][0]["epss"])` then
`float(result["data"][0]["percentile"])`, in evaluation order. -/
def parseBlock (result : Json) : Except PyExc (ℚ × ℚ) := do
  let d ← getItemStr result strData
  let e0 ← getItemIdx d 0
  let ev ← getItemStr e0 strEpss
  let score ← pyFloatOfJson ev
  let d2 ← getItemStr result strData
  let e1 ← getItemIdx d2 0
  let pv ← getItemStr e1 strPercentile
  let pct ← pyFloatOfJson pv
  pure (score, pct)

/-- The exception classes `except (KeyError, ValueError, IndexError)`
catches. -/
def isCaught : PyExc → Bool
  | .keyError => true
  | .valueError => true
  | .indexError => true
  | .typeError => false

/-- The score text set on success: `f"EPSS Score: {s:.4f}    Percentile:
{p:.2f}"` where `p` is already multiplied by 100. -/
def fmtLabel (score p100 : ℚ) : PyStr :=
  "EPSS Score: ".toList ++ formatFixed score 4 ++
    "    Percentile: ".toList ++ formatFixed p100 2

/-- `calculate_epss` lines 130-140 after the fetch: the
`if not result or "data" not in result or not result["data"]` test in
Python evaluation order, then the `try` block.  Returns the final widget
state and the exception that escaped, if any. -/
def calcBody (result : Option Json) (st1 : UIState) : UIState × Option PyExc :=
  match result with
  | none => ({ st1 with epssLabel := strNoData }, none)
  | some j =>
    if truthy j = false then ({ st1 with epssLabel := strNoData }, none)
    else match strInJson strData j with
      | .error e => (st1, some e)
      | .ok false => ({ st1 with epssLabel := strNoData }, none)
      | .ok true =>
        match getItemStr j strData with
        | .error e => (st1, some e)
        | .ok d =>
          if truthy d = false then ({ st1 with epssLabel := strNoData }, none)
          else match parseBlock j with
            | .ok sp => ({ st1 with epssLabel := fmtLabel sp.1 (sp.2 * 100) }, none)
            | .error e =>
              if isCaught e then ({ st1 with epssLabel := strProcErr }, none)
              else (st1, some e)

/-- `EPSSViewer.calculate_epss` from `src/app_gui.py` lines 119-140.
`selectedItems` is the widget's selection, `today` the string
`get_current_date()` returns, `net` the network. -/
def calculate_epss (net : HttpRequest → NetResult) (today : PyStr)
    (selectedItems : List PyStr) (st : UIState) : UIState × Option PyExc :=
  match selectedItems with
  | [] => ({ st with epssLabel := strPleaseSelect }, none)
  | cve_id :: _ =>
    let fr := fetch_epss_data net cve_id today st
    calcBody fr.1 fr.2.1

/-- The specification's `ScoreResult`: the typed outcome of one query. -/
inductive ScoreResult
  | success (score percentile : ℚ)
  | noData
  | transportError (msg : PyStr)
  | malformedResponse
deriving DecidableEq

/-- The outcome classification the source computes, with each branch of
`fetch_epss_data`/`calculate_epss` mapped to the specification's
`ScoreResult` variant it realizes: the caught-`RequestException` branch
to `TransportError`, the `not result or "data" not in result or not
result["data"]` branch (fetch succeeded) to `NoData`, the completed
`try` block to `Success` (raw percentile, before the display's `* 100`),
the caught parse exceptions to `MalformedResponse`.  An exception the
`except` clause does not catch escapes as `.error`. -/
def bodyOutcome (j : Json) : Except PyExc ScoreResult :=
  if truthy j = false then .ok .noData
  else match strInJson strData j with
    | .error e => .error e
    | .ok false => .ok .noData
    | .ok true =>
      match getItemStr j strData with
      | .error e => .error e
      | .ok d =>
        if truthy d = false then .ok .noData
        else match parseBlock j with
          | .ok sp => .ok (.success sp.1 sp.2)
          | .error e =>
            if isCaught e then .ok .malformedResponse
            else .error e

def queryOutcome (net : HttpRequest → NetResult) (cve today : PyStr) :
    Except PyExc ScoreResult :=
  match (fetchCore net cve today).2 with
  | .inl msg => .ok (.transportError msg)
  | .inr j => bodyOutcome j

/-- C7: for every network behavior, identifier and date, `fetch_epss_data`
issues exactly one GET — to the fixed endpoint
`https://api.first.org/data/v1/epss` with query parameters
`{cve, date, envelope: "true", pretty: "true"}` and a 10-second timeout —
whatever the outcome (no retry on failure). -/
theorem C7_single_fixed_request (net : HttpRequest → NetResult)
    (cve today : PyStr) (st : UIState) :
    (fetch_epss_data net cve today st).2.2 =
      [{ url := "https://api.first.org/data/v1/epss".toList,
         params := [("cve".toList, cve), ("date".toList, today),
                    ("envelope".toList, "true".toList),
                    ("pretty".toList, "true".toList)],
         timeout := 10 }] := by
  unfold fetch_epss_data fetchCore
  cases net (mkRequest cve today) with
  | exc msg => rfl
  | response status body =>
    by_cases hst : 400 ≤ status ∧ status < 600
    · simp only [raiseForStatus, if_pos hst]
      rfl
    · simp only [raiseForStatus, if_neg hst]
      rfl

lemma roundHalfEven_intCast (n : ℤ) : roundHalfEven ((n : ℚ)) = n := by
  have h0 : ((n : ℚ)) - ((n : ℚ)) = 0 := sub_self _
  rw [roundHalfEven, Int.floor_intCast, h0, if_pos (by norm_num)]

lemma formatFixed_eval (q : ℚ) (d n : Nat) (hq : 0 ≤ q)
    (h : q * 10 ^ d = (n : ℚ)) :
    formatFixed q d = natToChars (n / 10 ^ d) ++
      (if d = 0 then [] else '.' :: padZeros d (natToChars (n % 10 ^ d))) := by
  have hneg : ¬(q < 0) := not_lt.mpr hq
  have hr : roundHalfEven (|q| * (10 : ℚ) ^ d) = (n : ℤ) := by
    rw [abs_of_nonneg hq, h]
    have := roundHalfEven_intCast ((n : ℤ))
    rwa [Int.cast_natCast] at this
  rw [formatFixed, if_neg hneg, hr]
  simp

/-- C5: for every parsed score and percentile, the success branch of
`calculate_epss` sets the label to the score formatted to 4 decimal
places and the percentile times 100 formatted to 2 decimal places; at
the specification's concrete instance, score `0.1234` and percentile
`0.5` render as `0.1234` and `50.00`. -/
theorem C5_success_display_format (s p : ℚ) (st : UIState) :
    (calcBody (some (Json.obj [(strData,
        Json.arr [Json.obj [(strEpss, Json.num s),
          (strPercentile, Json.num p)]])])) st).1.epssLabel
      = "EPSS Score: ".toList ++ formatFixed s 4 ++
        "    Percentile: ".toList ++ formatFixed (p * 100) 2 ∧
    formatFixed (1234 / 10000 : ℚ) 4 = "0.1234".toList ∧
    formatFixed ((1 / 2 : ℚ) * 100) 2 = "50.00".toList := by
  refine ⟨rfl, ?_, ?_⟩
  · rw [formatFixed_eval (1234 / 10000 : ℚ) 4 1234 (by norm_num) (by norm_num)]
    decide
  · rw [formatFixed_eval ((1 / 2 : ℚ) * 100) 2 5000 (by norm_num) (by norm_num)]
    decide

/-- C2 as stated is false: on a transport failure the label
`fetch_epss_data` sets (carrying the transport text) is immediately
replaced — the final message of the query is the no-data text, which
does not contain the transport error text. -/
theorem C2_counterexample :
    (calculate_epss (fun _ => NetResult.exc ("Connection timed out".toList))
        ("2025-01-01".toList) ["CVE-2023-1234".toList]
        ⟨[], ["CVE-2023-1234".toList], []⟩).1.epssLabel = strNoData ∧
    strContains ("timed".toList) strNoData = false ∧
    strNoData ≠ strErrFetching ++ "Connection timed out".toList := by
  refine ⟨rfl, by decide, by decide⟩

/-- C4 as stated is false: a response whose first data element carries a
non-numeric `epss` of a non-string type (JSON `null`) does not yield
`MalformedResponse` — `float(None)` raises a `TypeError` the `except`
clause does not catch. -/
theorem C4_counterexample :
    queryOutcome (fun _ => NetResult.response 200 (Json.obj [(strData,
        Json.arr [Json.obj [(strEpss, Json.null)]])]))
      ("CVE-2023-1234".toList) ("2025-01-01".toList)
      = .error .typeError ∧
    (Except.error PyExc.typeError : Except PyExc ScoreResult)
      ≠ .ok .malformedResponse := by
  exact ⟨rfl, fun h => Except.noConfusion h⟩

/-- C6 as stated is false: the same `null`-`epss` response makes
`calculate_epss` end with an uncaught `TypeError` escaping the
boundary. -/
theorem C6_counterexample :
    (calculate_epss (fun _ => NetResult.response 200 (Json.obj [(strData,
        Json.arr [Json.obj [(strEpss, Json.null)]])]))
      ("2025-01-01".toList) ["CVE-2023-1234".toList] ⟨[], [], []⟩).2
      = some PyExc.typeError := by
  rfl

lemma bind_ok_eval {α β : Type} (a : α) (f : α → Except PyExc β) :
    Bind.bind (Except.ok a : Except PyExc α) f = f a := rfl

lemma objLookup_none_iff_any (kvs : List (PyStr × Json)) (key : PyStr) :
    objLookup kvs key = none ↔ (kvs.any fun kv => kv.1 == key) = false := by
  induction kvs with
  | nil => simp [objLookup, List.find?]
  | cons a l ih =>
    cases hk : (a.1 == key) with
    | true => simp [objLookup, List.find?, hk]
    | false =>
      simp only [objLookup, List.find?, hk, List.any_cons, Bool.false_or]
      simpa [objLookup] using ih

lemma objLookup_some_any (kvs : List (PyStr × Json)) (key : PyStr) (d : Json)
    (h : objLookup kvs key = some d) :
    (kvs.any fun kv => kv.1 == key) = true := by
  cases hany : (kvs.any fun kv => kv.1 == key) with
  | true => rfl
  | false =>
    rw [(objLookup_none_iff_any kvs key).mpr hany] at h
    exact Option.noConfusion h

lemma truthy_obj_of_lookup (kvs : List (PyStr × Json)) (key : PyStr) (d : Json)
    (h : objLookup kvs key = some d) : truthy (.obj kvs) = true := by
  cases kvs with
  | nil => simp [objLookup, List.find?] at h
  | cons a l => simp [truthy]

lemma getItemStr_obj (kvs : List (PyStr × Json)) (key : PyStr) (d : Json)
    (h : objLookup kvs key = some d) : getItemStr (.obj kvs) key = .ok d := by
  simp [getItemStr, h]

lemma parseBlock_eval (kvs : List (PyStr × Json)) (elt : Json) (rest : List Json)
    (ev pv : Json) (s p : ℚ)
    (hd : objLookup kvs strData = some (.arr (elt :: rest)))
    (hev : getItemStr elt strEpss = .ok ev) (hs : pyFloatOfJson ev = .ok s)
    (hpv : getItemStr elt strPercentile = .ok pv) (hp : pyFloatOfJson pv = .ok p) :
    parseBlock (.obj kvs) = .ok (s, p) := by
  have hget : getItemStr (.obj kvs) strData = .ok (.arr (elt :: rest)) :=
    getItemStr_obj _ _ _ hd
  have hidx : getItemIdx (Json.arr (elt :: rest)) 0 = .ok elt := rfl
  simp only [parseBlock, hget, bind_ok_eval, hidx, hev, hs, hpv, hp]
  rfl

lemma fetchCore_exc (net : HttpRequest → NetResult) (cve today msg : PyStr)
    (h : net (mkRequest cve today) = .exc msg) :
    (fetchCore net cve today).2 = Sum.inl (strErrFetching ++ msg) := by
  simp only [fetchCore, h]

lemma fetchCore_httpError (net : HttpRequest → NetResult) (cve today : PyStr)
    (status : Nat) (body : Json)
    (h : net (mkRequest cve today) = .response status body)
    (h4 : 400 ≤ status) (h6 : status < 600) :
    (fetchCore net cve today).2 = Sum.inl (strErrFetching ++
      (natToChars status ++ (if status < 500 then " Client Error".toList
        else " Server Error".toList))) := by
  simp only [fetchCore, h, raiseForStatus, if_pos (And.intro h4 h6)]

lemma fetchCore_ok (net : HttpRequest → NetResult) (cve today : PyStr)
    (status : Nat) (body : Json)
    (h : net (mkRequest cve today) = .response status body)
    (hst : ¬(400 ≤ status ∧ status < 600)) :
    (fetchCore net cve today).2 = Sum.inr body := by
  simp only [fetchCore, h, raiseForStatus, if_neg hst]

lemma queryOutcome_inl (net : HttpRequest → NetResult) (cve today msg : PyStr)
    (h : (fetchCore net cve today).2 = Sum.inl msg) :
    queryOutcome net cve today = .ok (.transportError msg) := by
  simp only [queryOutcome, h]

lemma queryOutcome_inr (net : HttpRequest → NetResult) (cve today : PyStr)
    (j : Json) (h : (fetchCore net cve today).2 = Sum.inr j) :
    queryOutcome net cve today = bodyOutcome j := by
  simp only [queryOutcome, h]

lemma bodyOutcome_noData (kvs : List (PyStr × Json))
    (h : objLookup kvs strData = none ∨
      ∃ d, objLookup kvs strData = some d ∧ truthy d = false) :
    bodyOutcome (.obj kvs) = .ok .noData := by
  by_cases ht : truthy (.obj kvs) = true
  · rcases h with hnone | ⟨d, hsome, hdf⟩
    · have hany := (objLookup_none_iff_any kvs strData).mp hnone
      simp [bodyOutcome, ht, strInJson, hany]
    · have hany := objLookup_some_any _ _ _ hsome
      simp [bodyOutcome, ht, strInJson, hany, getItemStr_obj _ _ _ hsome, hdf]
  · have ht' : truthy (.obj kvs) = false := by
      cases hx : truthy (.obj kvs) with
      | false => rfl
      | true => exact absurd hx ht
    simp [bodyOutcome, ht']

lemma bodyOutcome_success (kvs : List (PyStr × Json)) (d : Json) (s p : ℚ)
    (hsome : objLookup kvs strData = some d) (hdt : truthy d = true)
    (hpb : parseBlock (.obj kvs) = .ok (s, p)) :
    bodyOutcome (.obj kvs) = .ok (.success s p) := by
  have ht := truthy_obj_of_lookup _ _ _ hsome
  have hany := objLookup_some_any _ _ _ hsome
  simp [bodyOutcome, ht, strInJson, hany, getItemStr_obj _ _ _ hsome, hdt, hpb]

lemma bodyOutcome_parseError (kvs : List (PyStr × Json)) (d : Json) (e : PyExc)
    (hsome : objLookup kvs strData = some d) (hdt : truthy d = true)
    (hpb : parseBlock (.obj kvs) = .error e) :
    bodyOutcome (.obj kvs) =
      (if isCaught e then .ok .malformedResponse else .error e) := by
  have ht := truthy_obj_of_lookup _ _ _ hsome
  have hany := objLookup_some_any _ _ _ hsome
  simp [bodyOutcome, ht, strInJson, hany, getItemStr_obj _ _ _ hsome, hdt, hpb]

lemma strInJson_error_typeError (key : PyStr) (j : Json) (e : PyExc)
    (h : strInJson key j = .error e) : e = .typeError := by
  cases j with
  | null => injection h with h'; exact h'.symm
  | bool b => injection h with h'; exact h'.symm
  | num q => injection h with h'; exact h'.symm
  | str s => simp [strInJson] at h
  | arr xs => simp [strInJson] at h
  | obj kvs => simp [strInJson] at h

lemma getItemStr_error_after_inJson (j : Json) (e : PyExc)
    (hin : strInJson strData j = .ok true)
    (h : getItemStr j strData = .error e) : e = .typeError := by
  cases j with
  | null => simp [strInJson] at hin
  | bool b => simp [strInJson] at hin
  | num q => simp [strInJson] at hin
  | str s => injection h with h'; exact h'.symm
  | arr xs => injection h with h'; exact h'.symm
  | obj kvs =>
    have hany : (kvs.any fun kv => kv.1 == strData) = true := by
      simpa [strInJson] using hin
    cases hl : objLookup kvs strData with
    | some v => simp [getItemStr, hl] at h
    | none =>
      rw [(objLookup_none_iff_any kvs strData).mp hl] at hany
      exact absurd hany (by simp)

lemma calcBody_escape (r : Option Json) (st1 : UIState) :
    (calcBody r st1).2 = none ∨ (calcBody r st1).2 = some PyExc.typeError := by
  cases r with
  | none => exact Or.inl rfl
  | some j =>
    by_cases ht : truthy j = false
    · left
      simp [calcBody, ht]
    · cases hin : strInJson strData j with
      | error e =>
        have he := strInJson_error_typeError strData j e hin
        subst he
        right
        simp [calcBody, ht, hin]
      | ok b =>
        cases b with
        | false =>
          left
          simp [calcBody, ht, hin]
        | true =>
          cases hget : getItemStr j strData with
          | error e =>
            have he := getItemStr_error_after_inJson j e hin hget
            subst he
            right
            simp [calcBody, ht, hin, hget]
          | ok d =>
            by_cases hdt : truthy d = false
            · left
              simp [calcBody, ht, hin, hget, hdt]
            · cases hpb : parseBlock j with
              | ok sp =>
                left
                simp [calcBody, ht, hin, hget, hdt, hpb]
              | error e =>
                cases e with
                | typeError =>
                  right
                  simp [calcBody, ht, hin, hget, hdt, hpb, isCaught]
                | keyError =>
                  left
                  simp [calcBody, ht, hin, hget, hdt, hpb, isCaught]
                | valueError =>
                  left
                  simp [calcBody, ht, hin, hget, hdt, hpb, isCaught]
                | indexError =>
                  left
                  simp [calcBody, ht, hin, hget, hdt, hpb, isCaught]

lemma fmtLabel_ne_nil (s p : ℚ) : fmtLabel s p ≠ [] := by
  simp [fmtLabel]

lemma calcBody_label_ne_nil (r : Option Json) (st1 : UIState)
    (h : (calcBody r st1).2 = none) : (calcBody r st1).1.epssLabel ≠ [] := by
  cases r with
  | none =>
    show strNoData ≠ []
    decide
  | some j =>
    by_cases ht : truthy j = false
    · simp [calcBody, ht, strNoData]
    · cases hin : strInJson strData j with
      | error e =>
        simp [calcBody, ht, hin] at h
      | ok b =>
        cases b with
        | false => simp [calcBody, ht, hin, strNoData]
        | true =>
          cases hget : getItemStr j strData with
          | error e => simp [calcBody, ht, hin, hget] at h
          | ok d =>
            by_cases hdt : truthy d = false
            · simp [calcBody, ht, hin, hget, hdt, strNoData]
            · cases hpb : parseBlock j with
              | ok sp =>
                simp [calcBody, ht, hin, hget, hdt, hpb]
                exact fmtLabel_ne_nil _ _
              | error e =>
                cases hc : isCaught e with
                | true => simp [calcBody, ht, hin, hget, hdt, hpb, hc, strProcErr]
                | false => simp [calcBody, ht, hin, hget, hdt, hpb, hc] at h

lemma calcBody_noData (kvs : List (PyStr × Json)) (st1 : UIState)
    (h : objLookup kvs strData = none ∨
      ∃ d, objLookup kvs strData = some d ∧ truthy d = false) :
    calcBody (some (.obj kvs)) st1
      = ({ st1 with epssLabel := strNoData }, none) := by
  by_cases ht : truthy (.obj kvs) = true
  · rcases h with hnone | ⟨d, hsome, hdf⟩
    · have hany := (objLookup_none_iff_any kvs strData).mp hnone
      simp [calcBody, ht, strInJson, hany]
    · have hany := objLookup_some_any _ _ _ hsome
      simp [calcBody, ht, strInJson, hany, getItemStr_obj _ _ _ hsome, hdf]
  · have ht' : truthy (.obj kvs) = false := by
      cases hx : truthy (.obj kvs) with
      | false => rfl
      | true => exact absurd hx ht
    simp [calcBody, ht']

lemma fetch_epss_data_ok (net : HttpRequest → NetResult) (cve today : PyStr)
    (st : UIState) (status : Nat) (body : Json)
    (h : net (mkRequest cve today) = .response status body)
    (hst : ¬(400 ≤ status ∧ status < 600)) :
    fetch_epss_data net cve today st
      = (some body, st, [mkRequest cve today]) := by
  unfold fetch_epss_data fetchCore
  rw [h]
  simp only [raiseForStatus, if_neg hst]

/-- C2 (amended): the final message distinguishes only two error
classes.  A caught parse failure shows the generic parse-error text; a
response whose `data` field is absent or empty/falsy shows the no-data
message; but the transport case is NOT kept distinct: on a transport
failure the fetch stage writes `"Error fetching data: ..."` with the
transport text into the label, and the calculate stage then replaces it
with the very same no-data message a data-less response gets — so
transport failures and missing data end with the same final message. -/
theorem C2_error_message_fates :
    (∀ (net : HttpRequest → NetResult) (cve today : PyStr) (st : UIState)
      (msg : PyStr), net (mkRequest cve today) = .exc msg →
      (fetch_epss_data net cve today st).2.1.epssLabel = strErrFetching ++ msg ∧
      (calculate_epss net today [cve] st).1.epssLabel = strNoData) ∧
    (∀ (net : HttpRequest → NetResult) (cve today : PyStr) (st : UIState)
      (status : Nat) (kvs : List (PyStr × Json)),
      net (mkRequest cve today) = .response status (.obj kvs) →
      ¬(400 ≤ status ∧ status < 600) →
      (objLookup kvs strData = none ∨
        ∃ d, objLookup kvs strData = some d ∧ truthy d = false) →
      (calculate_epss net today [cve] st).1.epssLabel = strNoData) ∧
    (∀ st1 : UIState, (calcBody none st1).1.epssLabel = strNoData) ∧
    (∀ (j : Json) (st1 : UIState) (d : Json) (e : PyExc),
      truthy j = true → strInJson strData j = .ok true →
      getItemStr j strData = .ok d → truthy d = true →
      parseBlock j = .error e → isCaught e = true →
      (calcBody (some j) st1).1.epssLabel = strProcErr) := by
  refine ⟨?_, ?_, fun st1 => rfl, ?_⟩
  · intro net cve today st msg h
    constructor
    · simp only [fetch_epss_data, fetchCore, h]
    · simp only [calculate_epss, fetch_epss_data, fetchCore, h]
      rfl
  · intro net cve today st status kvs hnet hst hd
    have hstep : calculate_epss net today [cve] st
        = calcBody (some (.obj kvs)) st := by
      show calcBody (fetch_epss_data net cve today st).1
          (fetch_epss_data net cve today st).2.1 = _
      rw [fetch_epss_data_ok net cve today st status (.obj kvs) hnet hst]
    rw [hstep, calcBody_noData kvs st hd]
  · intro j st1 d e h1 h2 h3 h4 h5 h6
    have h1' : ¬(truthy j = false) := by simp [h1]
    have h4' : ¬(truthy d = false) := by simp [h4]
    simp [calcBody, h1', h2, h3, h4', h5, h6]

/-- Witness for C2's amended statement at concrete queries: on a
transport failure the fetch stage's label carries the transport text
yet the final label is the no-data message, and a 200 response with
`{"data": []}` ends with that same no-data message. -/
theorem C2_amended_witness :
    (fetch_epss_data (fun _ => NetResult.exc ("refused".toList))
      ("CVE-2023-1234".toList) ("2025-01-01".toList)
      ⟨[], [], []⟩).2.1.epssLabel = strErrFetching ++ "refused".toList ∧
    (calculate_epss (fun _ => NetResult.exc ("refused".toList))
      ("2025-01-01".toList) ["CVE-2023-1234".toList]
      ⟨[], [], []⟩).1.epssLabel = strNoData ∧
    (calculate_epss (fun _ => NetResult.response 200
        (Json.obj [(strData, Json.arr [])]))
      ("2025-01-01".toList) ["CVE-2023-1234".toList]
      ⟨[], [], []⟩).1.epssLabel = strNoData := by
  have h1 := C2_error_message_fates.1 (fun _ => NetResult.exc ("refused".toList))
    ("CVE-2023-1234".toList) ("2025-01-01".toList) ⟨[], [], []⟩
    ("refused".toList) rfl
  have h2 := C2_error_message_fates.2.1
    (fun _ => NetResult.response 200 (Json.obj [(strData, Json.arr [])]))
    ("CVE-2023-1234".toList) ("2025-01-01".toList) ⟨[], [], []⟩ 200
    [(strData, Json.arr [])] rfl (by simp)
    (Or.inr ⟨Json.arr [], rfl, rfl⟩)
  exact ⟨h1.1, h1.2, h2⟩

/-- C4 (amended): the outcome map of the source, case by case.  A raised
request exception yields `TransportError` with its text; an HTTP status
in 400..599 yields `TransportError` with the status text (statuses
outside 2xx but also outside 400..599, e.g. 304, are NOT transport
errors: the body is processed); an object body whose `data` is absent or
falsy yields `NoData`; a first data element whose `epss` and
`percentile` read as floats yields `Success` with the raw values; a
caught parse failure (missing key, unparseable string, bad index) yields
`MalformedResponse`; an uncaught `TypeError` (e.g. a `null` field value)
escapes as an exception instead. -/
theorem C4_fetch_outcome_cases :
    (∀ (net : HttpRequest → NetResult) (cve today msg : PyStr),
      net (mkRequest cve today) = .exc msg →
      queryOutcome net cve today =
        .ok (.transportError (strErrFetching ++ msg))) ∧
    (∀ (net : HttpRequest → NetResult) (cve today : PyStr) (status : Nat)
      (body : Json), net (mkRequest cve today) = .response status body →
      400 ≤ status → status < 600 →
      queryOutcome net cve today = .ok (.transportError (strErrFetching ++
        (natToChars status ++ (if status < 500 then " Client Error".toList
          else " Server Error".toList))))) ∧
    (∀ (net : HttpRequest → NetResult) (cve today : PyStr) (status : Nat)
      (kvs : List (PyStr × Json)),
      net (mkRequest cve today) = .response status (.obj kvs) →
      ¬(400 ≤ status ∧ status < 600) →
      (objLookup kvs strData = none ∨
        ∃ d, objLookup kvs strData = some d ∧ truthy d = false) →
      queryOutcome net cve today = .ok .noData) ∧
    (∀ (net : HttpRequest → NetResult) (cve today : PyStr) (status : Nat)
      (kvs : List (PyStr × Json)) (elt : Json) (rest : List Json)
      (ev pv : Json) (s p : ℚ),
      net (mkRequest cve today) = .response status (.obj kvs) →
      ¬(400 ≤ status ∧ status < 600) →
      objLookup kvs strData = some (.arr (elt :: rest)) →
      getItemStr elt strEpss = .ok ev → pyFloatOfJson ev = .ok s →
      getItemStr elt strPercentile = .ok pv → pyFloatOfJson pv = .ok p →
      queryOutcome net cve today = .ok (.success s p)) ∧
    (∀ (net : HttpRequest → NetResult) (cve today : PyStr) (status : Nat)
      (kvs : List (PyStr × Json)) (d : Json) (e : PyExc),
      net (mkRequest cve today) = .response status (.obj kvs) →
      ¬(400 ≤ status ∧ status < 600) →
      objLookup kvs strData = some d → truthy d = true →
      parseBlock (.obj kvs) = .error e →
      queryOutcome net cve today =
        (if isCaught e then .ok .malformedResponse else .error e)) := by
  refine ⟨?_, ?_, ?_, ?_, ?_⟩
  · intro net cve today msg h
    exact queryOutcome_inl net cve today _ (fetchCore_exc net cve today msg h)
  · intro net cve today status body h h4 h6
    exact queryOutcome_inl net cve today _
      (fetchCore_httpError net cve today status body h h4 h6)
  · intro net cve today status kvs h hst hd
    rw [queryOutcome_inr net cve today _ (fetchCore_ok net cve today status _ h hst)]
    exact bodyOutcome_noData kvs hd
  · intro net cve today status kvs elt rest ev pv s p h hst hd hev hs hpv hp
    rw [queryOutcome_inr net cve today _ (fetchCore_ok net cve today status _ h hst)]
    exact bodyOutcome_success kvs _ s p hd rfl
      (parseBlock_eval kvs elt rest ev pv s p hd hev hs hpv hp)
  · intro net cve today status kvs d e h hst hd hdt hpb
    rw [queryOutcome_inr net cve today _ (fetchCore_ok net cve today status _ h hst)]
    exact bodyOutcome_parseError kvs d e hd hdt hpb

/-- Witness for C4's amended statement at the specification's concrete
test vector: `{"data":[{"epss":0.5,"percentile":0.9}]}` yields
`Success{score: 1/2, percentile: 9/10}`. -/
theorem C4_amended_witness :
    queryOutcome (fun _ => NetResult.response 200 (Json.obj [(strData,
        Json.arr [Json.obj [(strEpss, Json.num (1 / 2)),
          (strPercentile, Json.num (9 / 10))]])]))
      ("CVE-2023-1234".toList) ("2025-01-01".toList)
      = .ok (.success (1 / 2) (9 / 10)) :=
  C4_fetch_outcome_cases.2.2.2.1
    (fun _ => NetResult.response 200 (Json.obj [(strData,
        Json.arr [Json.obj [(strEpss, Json.num (1 / 2)),
          (strPercentile, Json.num (9 / 10))]])]))
    ("CVE-2023-1234".toList) ("2025-01-01".toList) 200 _ _ _ _ _ (1 / 2) (9 / 10)
    rfl (by simp) rfl rfl rfl rfl rfl

/-- C6 (amended): network-boundary failures never escape (the fetch
always returns), and of the parse-boundary failures exactly the caught
kinds (`KeyError`, `ValueError`, `IndexError`) are converted to
messages — the only exception that can escape `calculate_epss` is a
`TypeError`; whenever no exception escapes, the resulting label is a
non-empty message. -/
theorem C6_boundary_policy :
    (∀ (net : HttpRequest → NetResult) (today : PyStr) (sel : List PyStr)
      (st : UIState),
      (calculate_epss net today sel st).2 = none ∨
      (calculate_epss net today sel st).2 = some PyExc.typeError) ∧
    (∀ (net : HttpRequest → NetResult) (today : PyStr) (sel : List PyStr)
      (st : UIState), (calculate_epss net today sel st).2 = none →
      (calculate_epss net today sel st).1.epssLabel ≠ []) := by
  constructor
  · intro net today sel st
    cases sel with
    | nil => exact Or.inl rfl
    | cons c rest => exact calcBody_escape _ _
  · intro net today sel st h
    cases sel with
    | nil =>
      show strPleaseSelect ≠ []
      decide
    | cons c rest => exact calcBody_label_ne_nil _ _ h

/-- Witness for C6's amended statement: a no-data query ends without an
escaping exception and with a non-empty label. -/
theorem C6_amended_witness :
    (calculate_epss (fun _ => NetResult.response 200 (Json.obj []))
      ("2025-01-01".toList) ["CVE-2023-1234".toList] ⟨[], [], []⟩).1.epssLabel
      ≠ [] :=
  C6_boundary_policy.2 (fun _ => NetResult.response 200 (Json.obj []))
    ("2025-01-01".toList) ["CVE-2023-1234".toList] ⟨[], [], []⟩ rfl

/-- `plot_bell_curve` line 144: `x = np.linspace(0, 1, 500)` — the 500
sample abscissas `i / 499`, exact as rationals. -/
def bellXs : List ℚ := (List.range 500).map (fun i : ℕ => (i : ℚ) / 499)

/-- `plot_bell_curve` line 145:
`y = np.exp(-((x - 0.5) ** 2) / (2 * 0.1 ** 2))`, the density as a real
function. -/
noncomputable def bellDensity (x : ℝ) : ℝ :=
  Real.exp (-((x - 0.5) ^ 2) / (2 * 0.1 ^ 2))

/-- The plotted curve: the 500 pairs `(x, density x)`. -/
noncomputable def plot_bell_curve_points : List (ℝ × ℝ) :=
  bellXs.map (fun q => (((q : ℝ)), bellDensity ((q : ℝ))))

lemma bellXs_ne_half (q : ℚ) (hq : q ∈ bellXs) : q ≠ 1 / 2 := by
  rw [bellXs] at hq
  obtain ⟨i, hi, rfl⟩ := List.mem_map.mp hq
  rw [List.mem_range] at hi
  intro he
  rw [div_eq_div_iff (by norm_num : ((499 : ℚ)) ≠ 0)
    (by norm_num : ((2 : ℚ)) ≠ 0)] at he
  norm_num at he
  have h2 : i * 2 = 499 := by exact_mod_cast he
  omega

/-- C3 as stated is false: no sampled x-value equals 0.5 — the grid
`linspace(0, 1, 500)` steps by `1/499`, and `i/499 = 1/2` would need
`2i = 499`, which is odd. -/
theorem C3_counterexample : bellXs.contains ((1 : ℚ) / 2) = false := by
  cases hcon : bellXs.contains ((1 : ℚ) / 2) with
  | false => rfl
  | true =>
    have hmem : ((1 : ℚ) / 2) ∈ bellXs := List.mem_of_elem_eq_true hcon
    exact absurd rfl (bellXs_ne_half _ hmem)

/-- C3 (amended): the curve has exactly 500 points, at `x = i/499` with
density `exp(-(x-0.5)^2 / (2*0.1^2))`; the density function peaks with
value 1 at `x = 0.5` and is strictly decreasing in `|x - 0.5|`, but the
point `x = 0.5` itself is NOT among the 500 samples (so no sampled
density equals the peak 1). -/
theorem C3_bell_curve_characterization :
    bellXs.length = 500 ∧
    (∀ i : ℕ, i < 500 → bellXs.get? i = some ((i : ℚ) / 499)) ∧
    plot_bell_curve_points =
      bellXs.map (fun q => (((q : ℝ)), bellDensity ((q : ℝ)))) ∧
    bellDensity (1 / 2) = 1 ∧
    (∀ x y : ℝ, |x - 1 / 2| < |y - 1 / 2| → bellDensity y < bellDensity x) ∧
    (∀ q ∈ bellXs, q ≠ 1 / 2) := by
  have e05 : (0.5 : ℝ) = 1 / 2 := by norm_num
  refine ⟨by simp [bellXs], ?_, rfl, ?_, ?_, bellXs_ne_half⟩
  · intro i hi
    simp only [bellXs, List.get?_map, List.get?_eq_getElem?, List.getElem?_map]
    rw [List.getElem?_range hi]
    rfl
  · rw [bellDensity, e05]
    norm_num
  · intro x y h
    rw [bellDensity, bellDensity, e05]
    apply Real.exp_lt_exp.mpr
    have hsq : (x - 1 / 2) ^ 2 < (y - 1 / 2) ^ 2 := by
      rw [← sq_abs (x - 1 / 2), ← sq_abs (y - 1 / 2)]
      exact pow_lt_pow_left h (abs_nonneg _) (by norm_num)
    have hc : (0 : ℝ) < 2 * 0.1 ^ 2 := by norm_num
    rw [div_lt_div_iff_of_pos_right hc]
    linarith

/-- Witness for C3's amended statement: the density strictly drops from
`x = 0.6` to `x = 0.8`, and the value at the exact center is 1. -/
theorem C3_amended_witness :
    bellDensity (4 / 5) < bellDensity (3 / 5) ∧ bellDensity (1 / 2) = 1 := by
  constructor
  · apply C3_bell_curve_characterization.2.2.2.2.1 (3 / 5) (4 / 5)
    rw [show (3 : ℝ) / 5 - 1 / 2 = 1 / 10 by norm_num,
      show (4 : ℝ) / 5 - 1 / 2 = 3 / 10 by norm_num,
      abs_of_nonneg (by norm_num : (0 : ℝ) ≤ 1 / 10),
      abs_of_nonneg (by norm_num : (0 : ℝ) ≤ 3 / 10)]
    norm_num
  · exact C3_bell_curve_characterization.2.2.2.1

lemma fetch_preserves_cveList (net : HttpRequest → NetResult)
    (cve today : PyStr) (st : UIState) :
    (fetch_epss_data net cve today st).2.1.cveList = st.cveList := by
  unfold fetch_epss_data fetchCore
  cases net (mkRequest cve today) with
  | exc msg => rfl
  | response status body =>
    by_cases hst : 400 ≤ status ∧ status < 600
    · simp only [raiseForStatus, if_pos hst]
    · simp only [raiseForStatus, if_neg hst]

lemma calcBody_preserves_cveList (r : Option Json) (st1 : UIState) :
    (calcBody r st1).1.cveList = st1.cveList := by
  cases r with
  | none => rfl
  | some j =>
    by_cases ht : truthy j = false
    · simp [calcBody, ht]
    · cases hin : strInJson strData j with
      | error e => simp [calcBody, ht, hin]
      | ok b =>
        cases b with
        | false => simp [calcBody, ht, hin]
        | true =>
          cases hget : getItemStr j strData with
          | error e => simp [calcBody, ht, hin, hget]
          | ok d =>
            by_cases hdt : truthy d = false
            · simp [calcBody, ht, hin, hget, hdt]
            · cases hpb : parseBlock j with
              | ok sp => simp [calcBody, ht, hin, hget, hdt, hpb]
              | error e =>
                cases hc : isCaught e with
                | true => simp [calcBody, ht, hin, hget, hdt, hpb, hc]
                | false => simp [calcBody, ht, hin, hget, hdt, hpb, hc]

lemma calculate_preserves_cveList (net : HttpRequest → NetResult)
    (today : PyStr) (sel : List PyStr) (st : UIState) :
    (calculate_epss net today sel st).1.cveList = st.cveList := by
  cases sel with
  | nil => rfl
  | cons c rest =>
    show (calcBody (fetch_epss_data net c today st).1
        (fetch_epss_data net c today st).2.1).1.cveList = st.cveList
    rw [calcBody_preserves_cveList, fetch_preserves_cveList]

/-- The events through which the widget state changes: the user edits
the input line, clicks `Add CVE` (`add_cve`), or clicks `Calculate`
(`calculate_epss`, under some network behavior, date and selection). -/
inductive UIEvent
  | setInput (s : PyStr)
  | addClick
  | calcClick (net : HttpRequest → NetResult) (today : PyStr)
      (selected : List PyStr)

def uiStep (st : UIState) : UIEvent → UIState
  | .setInput s => { st with cveInput := s }
  | .addClick => add_cve st
  | .calcClick net today sel => (calculate_epss net today sel st).1

/-- The state `init_ui` builds: empty input, empty list, placeholder
label. -/
def initState : UIState :=
  ⟨[], [], "EPSS Score: X    Percentile: XX".toList⟩

/-- The states the widgets can reach from startup through the modelled
events. -/
inductive Reachable : UIState → Prop
  | init : Reachable initState
  | step (st : UIState) (e : UIEvent) : Reachable st → Reachable (uiStep st e)

/-- C10: in every reachable state, every identifier in the list passes
`is_valid_cve` — `add_cve` is the only event that inserts, and it
inserts only stripped text that passed validation, while `calculate_epss`
and input edits leave the list unchanged. -/
theorem C10_list_invariant (st : UIState) (h : Reachable st) :
    ∀ x ∈ st.cveList, is_valid_cve x = true := by
  induction h with
  | init =>
    intro x hx
    simp [initState] at hx
  | step st' e h' ih =>
    cases e with
    | setInput s => exact fun x hx => ih x hx
    | addClick =>
      intro x hx
      by_cases hv : is_valid_cve (pyStrip st'.cveInput) = true
      · have he : (uiStep st' UIEvent.addClick).cveList
            = st'.cveList ++ [pyStrip st'.cveInput] := by
          show (add_cve st').cveList = _
          rw [add_cve, if_pos hv]
        rw [he] at hx
        rcases List.mem_append.mp hx with h1 | h1
        · exact ih x h1
        · rw [List.mem_singleton.mp h1]
          exact hv
      · have he : (uiStep st' UIEvent.addClick).cveList = st'.cveList := by
          show (add_cve st').cveList = _
          rw [add_cve, if_neg hv]
        rw [he] at hx
        exact ih x hx
    | calcClick net today sel =>
      intro x hx
      rw [show (uiStep st' (UIEvent.calcClick net today sel)).cveList
          = st'.cveList from calculate_preserves_cveList net today sel st'] at hx
      exact ih x hx

/-- Witness for C10: after typing `CVE-2023-1234` and clicking add from
the initial state, the reached state's one list entry validates. -/
theorem C10_witness : is_valid_cve ("CVE-2023-1234".toList) = true := by
  have hreach : Reachable (uiStep (uiStep initState
      (UIEvent.setInput ("CVE-2023-1234".toList))) UIEvent.addClick) :=
    Reachable.step _ _ (Reachable.step _ _ Reachable.init)
  exact C10_list_invariant _ hreach ("CVE-2023-1234".toList) (by decide)
